import Mathlib

/-!
Verification of the data preparation and aggregation pipeline of the
Goias agricultural dashboard (files streamlit_app.py and prueba.py).

The pipeline is shallowly embedded: each pandas operation of the source
is translated into an executable Lean definition over association lists
and rational numbers. Measure cells are rationals; a raw source cell is
either a number or an unparseable text value, mirroring what
pd.to_numeric with errors set to coerce distinguishes.
-/

namespace Goias

/-- Key of the fact table: the triple (Ano, Cultura, Municipio) that the
sources are indexed by in carregar_e_preparar_dados. -/
structure Key where
  ano : Int
  cultura : String
  municipio : String
deriving DecidableEq, Repr

/-- One row of the merged fact table: the key triple plus the four numeric
measure columns Area, Toneladas, Valor_Produccion and Rendimento. -/
structure Row where
  ano : Int
  cultura : String
  municipio : String
  area : ℚ
  toneladas : ℚ
  valor_produccion : ℚ
  rendimento : ℚ
deriving DecidableEq, Repr

/-- The key triple of a fact-table row. -/
def rowKey (r : Row) : Key := ⟨r.ano, r.cultura, r.municipio⟩

/-- A raw cell of one source spreadsheet Valor column: either a numeric
value or a text value that pd.to_numeric cannot parse. -/
inductive RawCell where
  | num (q : ℚ)
  | text (s : String)
deriving DecidableEq, Repr

/-- The per-cell effect of pd.to_numeric with coercion followed by
fillna(0): a number parses to itself and anything unparseable becomes 0. -/
def coerceFill : RawCell → ℚ
  | RawCell.num q => q
  | RawCell.text _ => 0

/-- Index lookup in one keyed source (first match wins; each source is
assumed unique on the key triple, as the spec states). -/
def lookupCell : List (Key × RawCell) → Key → Option RawCell
  | [], _ => none
  | (k', c) :: rest, k => if k' = k then some c else lookupCell rest k

/-- The cell the outer join leaves at key k after fillna(0): the source
cell when the key is present, otherwise the filled-in 0. -/
def cellAfterFill (l : List (Key × RawCell)) (k : Key) : RawCell :=
  match lookupCell l k with
  | some c => c
  | none => RawCell.num 0

/-- Final numeric value of one measure at key k: join alignment, NaN fill
with 0, then numeric coercion with fallback 0. -/
def mergeValue (l : List (Key × RawCell)) (k : Key) : ℚ :=
  coerceFill (cellAfterFill l k)

/-- The four normalized keyed sources, one per measure, in the order of
the file_paths dictionary of the source code. -/
structure Sources where
  area : List (Key × RawCell)
  toneladas : List (Key × RawCell)
  valor : List (Key × RawCell)
  rendimento : List (Key × RawCell)
deriving Repr

/-- Key set of the outer join: the union of the key sets of the four
sources, each key kept once. -/
def mergedKeys (s : Sources) : List Key :=
  (s.area.map Prod.fst ++ s.toneladas.map Prod.fst ++
    s.valor.map Prod.fst ++ s.rendimento.map Prod.fst).dedup

/-- The fact-table row the merge produces at key k. -/
def mergeRow (s : Sources) (k : Key) : Row :=
  { ano := k.ano
    cultura := k.cultura
    municipio := k.municipio
    area := mergeValue s.area k
    toneladas := mergeValue s.toneladas k
    valor_produccion := mergeValue s.valor k
    rendimento := mergeValue s.rendimento k }

/-- The merge stage of carregar_e_preparar_dados: outer join of the four
keyed sources, fillna(0), reset_index, and numeric coercion of the four
measure columns. -/
def carregar_e_preparar_dados (s : Sources) : List Row :=
  (mergedKeys s).map (mergeRow s)

/-- Locator of the Area source, from the file_paths dictionary. -/
def areaPath : String := "data/datos_goias_areas.xlsx"

/-- Locator of the Toneladas source, from the file_paths dictionary. -/
def toneladasPath : String := "data/datos_goias_toneladas.xlsx"

/-- Locator of the Valor_Produccion source, from the file_paths dictionary. -/
def valorPath : String := "data/datos_goias_valor.xlsx"

/-- Locator of the Rendimento source, from the file_paths dictionary. -/
def rendimentoPath : String := "data/datos_goias_rendimiento.xlsx"

/-- The four readable-or-not sources as the loader sees them: none models
a FileNotFoundError when reading that locator. -/
structure RawSources where
  area : Option (List (Key × RawCell))
  toneladas : Option (List (Key × RawCell))
  valor : Option (List (Key × RawCell))
  rendimento : Option (List (Key × RawCell))

/-- Full loader carregar_e_preparar_dados including its error handling:
the sources are read in the order of the file_paths dictionary and the
first FileNotFoundError aborts the whole load, returning the failing
locator; only when all four reads succeed is the merge performed. -/
def carregarLoader (r : RawSources) : Option (List Row) × Option String :=
  match r.area with
  | none => (none, some areaPath)
  | some a =>
    match r.toneladas with
    | none => (none, some toneladasPath)
    | some t =>
      match r.valor with
      | none => (none, some valorPath)
      | some v =>
        match r.rendimento with
        | none => (none, some rendimentoPath)
        | some rd => (some (carregar_e_preparar_dados ⟨a, t, v, rd⟩), none)

/-- Locator of the first source, in dictionary order, that fails to read;
none when all four reads succeed. Used to state the fail-fast property. -/
def firstFailingLocator (r : RawSources) : Option String :=
  if r.area.isNone then some areaPath
  else if r.toneladas.isNone then some toneladasPath
  else if r.valor.isNone then some valorPath
  else if r.rendimento.isNone then some rendimentoPath
  else none

/-- Names of the four measure columns of the fact table, the options of
the bar-chart metric selectbox. -/
inductive MetricKey where
  | area
  | toneladas
  | valor_produccion
  | rendimento
deriving DecidableEq, Repr

/-- Value of the selected measure column in one row. -/
def getMetric (mk : MetricKey) (r : Row) : ℚ :=
  match mk with
  | MetricKey.area => r.area
  | MetricKey.toneladas => r.toneladas
  | MetricKey.valor_produccion => r.valor_produccion
  | MetricKey.rendimento => r.rendimento

/-- The keyed source holding the given measure column. -/
def sourceOf (s : Sources) (mk : MetricKey) : List (Key × RawCell) :=
  match mk with
  | MetricKey.area => s.area
  | MetricKey.toneladas => s.toneladas
  | MetricKey.valor_produccion => s.valor
  | MetricKey.rendimento => s.rendimento

/-- Replace one measure column source with another table. -/
def setSource (s : Sources) (mk : MetricKey) (l : List (Key × RawCell)) : Sources :=
  match mk with
  | MetricKey.area => { s with area := l }
  | MetricKey.toneladas => { s with toneladas := l }
  | MetricKey.valor_produccion => { s with valor := l }
  | MetricKey.rendimento => { s with rendimento := l }

/-- Overwrite the cell stored at key k of one source with a new cell,
leaving every other key untouched. -/
def replaceCell (l : List (Key × RawCell)) (k : Key) (c : RawCell) :
    List (Key × RawCell) :=
  l.map (fun kv => if kv.1 = k then (kv.1, c) else kv)

/-- Order-preserving duplicate-dropping insertion, the building block of
the ascending group-key order that pandas groupby produces. -/
def insOrd {α : Type} [LinearOrder α] (x : α) : List α → List α
  | [] => [x]
  | y :: ys =>
    if x < y then x :: y :: ys
    else if y < x then y :: insOrd x ys
    else y :: ys

/-- The distinct values of a list in ascending order: the group keys of a
pandas groupby over that column. -/
def sortDedup {α : Type} [LinearOrder α] (l : List α) : List α :=
  l.foldr insOrd []

/-- Sentinel option of the municipality selectbox that selects every
municipality. -/
def todosMunicipios : String := "Todos os Municípios"

/-- The crop-and-municipality filter df_filtrado_base of the sidebar. -/
def df_filtrado_base (df : List Row) (cultura municipio : String) : List Row :=
  if municipio == todosMunicipios then
    df.filter (fun r => r.cultura == cultura)
  else
    df.filter (fun r => r.cultura == cultura && r.municipio == municipio)

/-- The year-range filter applied after df_filtrado_base, yielding
df_filtrado. -/
def df_filtrado (df : List Row) (cultura municipio : String)
    (anoMin anoMax : Int) : List Row :=
  (df_filtrado_base df cultura municipio).filter
    (fun r => decide (anoMin ≤ r.ano) && decide (r.ano ≤ anoMax))

/-- The single selection predicate the two filter steps implement jointly. -/
def rowMatches (r : Row) (cultura municipio : String)
    (anoMin anoMax : Int) : Bool :=
  (if municipio == todosMunicipios then r.cultura == cultura
   else r.cultura == cultura && r.municipio == municipio)
  && (decide (anoMin ≤ r.ano) && decide (r.ano ≤ anoMax))

/-- Maximum year present in a table, as in df_filtrado Ano max; the
source only evaluates it on a non-empty table, the default is irrelevant. -/
def latest_year_in_range (df : List Row) : Int :=
  ((df.map Row.ano).max?).getD 0

/-- Sum of the Area column, as computed for the KPI tiles. -/
def total_area (df : List Row) : ℚ := (df.map Row.area).sum

/-- The inline KPI average yield: sum of Rendimento times Area divided by
total area when the total area is positive, else 0. -/
def avg_rendimento (df : List Row) : ℚ :=
  if total_area df > 0 then
    (df.map (fun r => r.rendimento * r.area)).sum / total_area df
  else 0

/-- Result record of calcular_metricas_anuais: the four aggregated
measures of one year group. -/
structure Metricas where
  area : ℚ
  toneladas : ℚ
  valor_produccion : ℚ
  rendimento : ℚ
deriving DecidableEq, Repr

/-- The helper calcular_metricas_anuais applied to one year group: sums
for the additive measures and the guarded area-weighted mean for yield. -/
def calcular_metricas_anuais (group : List Row) : Metricas :=
  let area_sum := (group.map Row.area).sum
  let rendimento_ponderado :=
    if area_sum > 0 then
      (group.map (fun r => r.rendimento * r.area)).sum / area_sum
    else 0
  { area := area_sum
    toneladas := (group.map Row.toneladas).sum
    valor_produccion := (group.map Row.valor_produccion).sum
    rendimento := rendimento_ponderado }

/-- The distinct years of a table in ascending order, the index of the
groupby over Ano. -/
def anosOrdenados (df : List Row) : List Int :=
  sortDedup (df.map Row.ano)

/-- The time-series table: df_filtrado grouped by Ano with
calcular_metricas_anuais applied to each year group. -/
def timeSeries (df : List Row) : List (Int × Metricas) :=
  (anosOrdenados df).map
    (fun y => (y, calcular_metricas_anuais (df.filter (fun r => r.ano == y))))

/-- The pandas agg step of the bar chart: mean of the selected column when
the metric is Rendimento, sum otherwise. -/
def aggValue (mk : MetricKey) (group : List Row) : ℚ :=
  if mk = MetricKey.rendimento then
    (group.map (getMetric mk)).sum / (group.length : ℚ)
  else
    (group.map (getMetric mk)).sum

/-- Descending insertion by aggregated value, the ordering step behind
nlargest. -/
def insDesc (x : String × ℚ) : List (String × ℚ) → List (String × ℚ)
  | [] => [x]
  | y :: ys => if y.2 < x.2 then x :: y :: ys else y :: insDesc x ys

/-- Sort a list of labelled aggregates by value, descending. -/
def sortDesc (l : List (String × ℚ)) : List (String × ℚ) :=
  l.foldr insDesc []

/-- The nlargest step of the all-municipalities bar chart: the first ten
entries in descending order of the aggregated value. -/
def nlargest10 (l : List (String × ℚ)) : List (String × ℚ) :=
  (sortDesc l).take 10

/-- Bar-chart data in the all-municipalities branch: the latest-year
subset grouped by Municipio, aggregated with aggValue, truncated to the
top ten. -/
def bar_data_todos (dfUltimo : List Row) (mk : MetricKey) :
    List (String × ℚ) :=
  nlargest10 ((sortDedup (dfUltimo.map Row.municipio)).map
    (fun m => (m, aggValue mk (dfUltimo.filter (fun r => r.municipio == m)))))

/-- Bar-chart data in the single-municipality branch: the whole fact
table restricted to that municipality and the latest year, grouped by
Cultura and aggregated with aggValue, with no truncation. -/
def bar_data_municipio (df : List Row) (municipio : String) (ly : Int)
    (mk : MetricKey) : List (String × ℚ) :=
  let dfm := df.filter (fun r => r.municipio == municipio && r.ano == ly)
  (sortDedup (dfm.map Row.cultura)).map
    (fun c => (c, aggValue mk (dfm.filter (fun r => r.cultura == c))))

/-- The derived tables one rendering pass consumes. -/
structure Outputs where
  filtrado : List Row
  series : List (Int × Metricas)
  comparativo : List (String × ℚ)
deriving Repr

/-- One aggregator pass of the dashboard body: when the filtered table is
empty every chart block is skipped, otherwise the time series and the
branch-dependent bar-chart data are computed. -/
def dashboardAggregator (df : List Row) (cultura municipio : String)
    (anoMin anoMax : Int) (mk : MetricKey) : Outputs :=
  let filt := df_filtrado df cultura municipio anoMin anoMax
  if filt.isEmpty then
    { filtrado := filt, series := [], comparativo := [] }
  else
    let ly := latest_year_in_range filt
    let comp :=
      if municipio == todosMunicipios then
        bar_data_todos (filt.filter (fun r => r.ano == ly)) mk
      else
        bar_data_municipio df municipio ly mk
    { filtrado := filt, series := timeSeries filt, comparativo := comp }

/-- The whole script run: load, halt on a missing source (st.stop),
otherwise aggregate for the current selection. -/
def appRun (r : RawSources) (cultura municipio : String)
    (anoMin anoMax : Int) (mk : MetricKey) : Option Outputs :=
  match carregarLoader r with
  | (some df, _) => some (dashboardAggregator df cultura municipio anoMin anoMax mk)
  | (none, _) => none

/-- A cell is non-negative when it is a number at least 0; text cells are
harmless because coercion turns them into 0. -/
def cellNonneg : RawCell → Prop
  | RawCell.num q => 0 ≤ q
  | RawCell.text _ => True

/-! Helper lemmas about the ordered duplicate-free insertion. -/

theorem mem_insOrd {α : Type} [LinearOrder α] (x a : α) (l : List α) :
    a ∈ insOrd x l ↔ a = x ∨ a ∈ l := by
  induction l with
  | nil => simp [insOrd]
  | cons y ys ih =>
    simp only [insOrd]
    split_ifs with h1 h2
    · simp [List.mem_cons]
    · simp only [List.mem_cons, ih]
      tauto
    · have hxy : x = y := le_antisymm (not_lt.mp h2) (not_lt.mp h1)
      subst hxy
      simp only [List.mem_cons]
      tauto

theorem sorted_insOrd {α : Type} [LinearOrder α] (x : α) (l : List α)
    (h : l.Sorted (· < ·)) : (insOrd x l).Sorted (· < ·) := by
  induction l with
  | nil => simp [insOrd]
  | cons y ys ih =>
    rw [List.sorted_cons] at h
    obtain ⟨hy, hys⟩ := h
    simp only [insOrd]
    split_ifs with h1 h2
    · rw [List.sorted_cons]
      refine ⟨fun b hb => ?_, List.sorted_cons.mpr ⟨hy, hys⟩⟩
      rcases List.mem_cons.mp hb with rfl | hmem
      · exact h1
      · exact lt_trans h1 (hy b hmem)
    · rw [List.sorted_cons]
      refine ⟨fun b hb => ?_, ih hys⟩
      rcases (mem_insOrd x b ys).mp hb with rfl | hmem
      · exact h2
      · exact hy b hmem
    · exact List.sorted_cons.mpr ⟨hy, hys⟩

theorem mem_sortDedup {α : Type} [LinearOrder α] (a : α) (l : List α) :
    a ∈ sortDedup l ↔ a ∈ l := by
  induction l with
  | nil => simp [sortDedup]
  | cons y ys ih =>
    simp only [sortDedup, List.foldr_cons] at *
    rw [mem_insOrd, ih, List.mem_cons]

theorem sorted_sortDedup {α : Type} [LinearOrder α] (l : List α) :
    (sortDedup l).Sorted (· < ·) := by
  induction l with
  | nil => simp [sortDedup]
  | cons y ys ih =>
    simp only [sortDedup, List.foldr_cons] at *
    exact sorted_insOrd y _ ih

/-! Helper lemmas about lookup, merge and cell replacement. -/

theorem lookupCell_eq_none_iff (l : List (Key × RawCell)) (k : Key) :
    lookupCell l k = none ↔ k ∉ l.map Prod.fst := by
  induction l with
  | nil => simp [lookupCell]
  | cons kv rest ih =>
    obtain ⟨k', c⟩ := kv
    simp only [lookupCell, List.map_cons, List.mem_cons]
    split_ifs with h
    · subst h
      simp
    · have h' : ¬ k = k' := fun e => h e.symm
      simp [ih, h']

theorem lookupCell_mem (l : List (Key × RawCell)) (k : Key) (c : RawCell)
    (h : lookupCell l k = some c) : (k, c) ∈ l := by
  induction l with
  | nil => simp [lookupCell] at h
  | cons kv rest ih =>
    obtain ⟨k', c'⟩ := kv
    simp only [lookupCell] at h
    split_ifs at h with he
    · subst he
      obtain rfl : c' = c := Option.some.inj h
      exact List.mem_cons_self _ _
    · exact List.mem_cons_of_mem _ (ih h)

theorem rowKey_mergeRow (s : Sources) (k : Key) : rowKey (mergeRow s k) = k := rfl

theorem mergeValue_of_not_mem (l : List (Key × RawCell)) (k : Key)
    (h : k ∉ l.map Prod.fst) : mergeValue l k = 0 := by
  unfold mergeValue cellAfterFill
  rw [(lookupCell_eq_none_iff l k).mpr h]
  rfl

theorem mergeValue_nonneg (l : List (Key × RawCell)) (k : Key)
    (h : ∀ kv ∈ l, cellNonneg kv.2) : 0 ≤ mergeValue l k := by
  unfold mergeValue cellAfterFill
  cases hl : lookupCell l k with
  | none => simp [coerceFill]
  | some c =>
    have hc : cellNonneg c := h (k, c) (lookupCell_mem l k c hl)
    cases c with
    | num q => exact hc
    | text s => simp [coerceFill]

theorem map_fst_replaceCell (l : List (Key × RawCell)) (k : Key) (c : RawCell) :
    (replaceCell l k c).map Prod.fst = l.map Prod.fst := by
  unfold replaceCell
  rw [List.map_map]
  apply List.map_congr_left
  intro kv _
  by_cases h : kv.1 = k <;> simp [Function.comp, h]

theorem replaceCell_cons (kv : Key × RawCell) (rest : List (Key × RawCell))
    (k : Key) (c : RawCell) :
    replaceCell (kv :: rest) k c
      = (if kv.1 = k then (kv.1, c) else kv) :: replaceCell rest k c := rfl

theorem lookupCell_cons (k1 : Key) (c1 : RawCell) (rest : List (Key × RawCell))
    (k : Key) :
    lookupCell ((k1, c1) :: rest) k
      = if k1 = k then some c1 else lookupCell rest k := rfl

theorem lookupCell_replaceCell_self (l : List (Key × RawCell)) (k : Key)
    (c : RawCell) :
    lookupCell (replaceCell l k c) k = (lookupCell l k).map (fun _ => c) := by
  induction l with
  | nil => rfl
  | cons kv rest ih =>
    obtain ⟨k1, c1⟩ := kv
    by_cases h : k1 = k
    · subst h
      simp [replaceCell_cons, lookupCell_cons]
    · simp [replaceCell_cons, lookupCell_cons, h]
      exact ih

theorem lookupCell_replaceCell_ne (l : List (Key × RawCell)) (k : Key)
    (c : RawCell) (k' : Key) (h : k' ≠ k) :
    lookupCell (replaceCell l k c) k' = lookupCell l k' := by
  induction l with
  | nil => rfl
  | cons kv rest ih =>
    obtain ⟨k1, c1⟩ := kv
    by_cases h1 : k1 = k
    · subst h1
      have h2 : ¬ k1 = k' := fun e => h e.symm
      simp [replaceCell_cons, lookupCell_cons, h2]
      exact ih
    · by_cases h2 : k1 = k'
      · subst h2
        simp [replaceCell_cons, lookupCell_cons, h1]
      · simp [replaceCell_cons, lookupCell_cons, h1, h2]
        exact ih

theorem map_fst_map_pair {α β : Type} (l : List α) (g : α → β) :
    (l.map (fun a => (a, g a))).map Prod.fst = l := by
  induction l with
  | nil => rfl
  | cons x xs ih => simp [ih]

/-! Claim theorems. -/

/-- C2: for four sources each uniquely keyed by (year, crop, municipality),
the merged fact table has exactly one row per triple of the union of the
four key sets (the mapped keys are duplicate-free and a key occurs iff it
occurs in some source), and each measure whose source lacks the triple of
a row is 0 in that row. -/
theorem join_completeness (s : Sources)
    (h1 : (s.area.map Prod.fst).Nodup) (h2 : (s.toneladas.map Prod.fst).Nodup)
    (h3 : (s.valor.map Prod.fst).Nodup) (h4 : (s.rendimento.map Prod.fst).Nodup) :
    ((carregar_e_preparar_dados s).map rowKey).Nodup
    ∧ (∀ k : Key, k ∈ (carregar_e_preparar_dados s).map rowKey ↔
        (k ∈ s.area.map Prod.fst ∨ k ∈ s.toneladas.map Prod.fst ∨
         k ∈ s.valor.map Prod.fst ∨ k ∈ s.rendimento.map Prod.fst))
    ∧ (∀ r ∈ carregar_e_preparar_dados s,
        (rowKey r ∉ s.area.map Prod.fst → r.area = 0)
        ∧ (rowKey r ∉ s.toneladas.map Prod.fst → r.toneladas = 0)
        ∧ (rowKey r ∉ s.valor.map Prod.fst → r.valor_produccion = 0)
        ∧ (rowKey r ∉ s.rendimento.map Prod.fst → r.rendimento = 0)) := by
  have hmap : (carregar_e_preparar_dados s).map rowKey = mergedKeys s := by
    unfold carregar_e_preparar_dados
    rw [List.map_map]
    have hcomp : rowKey ∘ mergeRow s = id := funext fun k => rfl
    rw [hcomp, List.map_id]
  refine ⟨?_, ?_, ?_⟩
  · rw [hmap]
    exact List.nodup_dedup _
  · intro k
    rw [hmap]
    unfold mergedKeys
    simp only [List.mem_dedup, List.mem_append]
    tauto
  · intro r hr
    obtain ⟨k, hk, rfl⟩ := List.mem_map.mp hr
    rw [rowKey_mergeRow]
    exact ⟨fun h => mergeValue_of_not_mem _ _ h,
           fun h => mergeValue_of_not_mem _ _ h,
           fun h => mergeValue_of_not_mem _ _ h,
           fun h => mergeValue_of_not_mem _ _ h⟩

/-- Concrete pair of sources used to witness join completeness. -/
def c2src : Sources :=
  { area := [(⟨2020, "Soja", "A"⟩, RawCell.num 10)]
    toneladas := [(⟨2021, "Milho", "B"⟩, RawCell.num 5)]
    valor := []
    rendimento := [] }

/-- Witness for C2 at a concrete pair of overlapping sources. -/
theorem join_completeness_witness :
    ((c2src.area.map Prod.fst).Nodup ∧ (c2src.toneladas.map Prod.fst).Nodup
      ∧ (c2src.valor.map Prod.fst).Nodup ∧ (c2src.rendimento.map Prod.fst).Nodup)
    ∧ (((carregar_e_preparar_dados c2src).map rowKey).Nodup
    ∧ (∀ k : Key, k ∈ (carregar_e_preparar_dados c2src).map rowKey ↔
        (k ∈ c2src.area.map Prod.fst ∨ k ∈ c2src.toneladas.map Prod.fst ∨
         k ∈ c2src.valor.map Prod.fst ∨ k ∈ c2src.rendimento.map Prod.fst))
    ∧ (∀ r ∈ carregar_e_preparar_dados c2src,
        (rowKey r ∉ c2src.area.map Prod.fst → r.area = 0)
        ∧ (rowKey r ∉ c2src.toneladas.map Prod.fst → r.toneladas = 0)
        ∧ (rowKey r ∉ c2src.valor.map Prod.fst → r.valor_produccion = 0)
        ∧ (rowKey r ∉ c2src.rendimento.map Prod.fst → r.rendimento = 0))) :=
  ⟨⟨by decide, by decide, by decide, by decide⟩,
   join_completeness c2src (by decide) (by decide) (by decide) (by decide)⟩

/-- C3: when at least one of the four locators cannot be read, the loader
returns no fact table at all together with the first failing locator in
dictionary order, and the whole script run halts with no outputs. -/
theorem fail_fast (r : RawSources) (cultura municipio : String)
    (anoMin anoMax : Int) (mk : MetricKey)
    (h : r.area = none ∨ r.toneladas = none ∨ r.valor = none ∨ r.rendimento = none) :
    (carregarLoader r).1 = none
    ∧ (carregarLoader r).2 = firstFailingLocator r
    ∧ (firstFailingLocator r).isSome = true
    ∧ appRun r cultura municipio anoMin anoMax mk = none := by
  rcases hA : r.area with _ | a
  · simp [carregarLoader, firstFailingLocator, appRun, hA]
  · rcases hT : r.toneladas with _ | t
    · simp [carregarLoader, firstFailingLocator, appRun, hA, hT]
    · rcases hV : r.valor with _ | v
      · simp [carregarLoader, firstFailingLocator, appRun, hA, hT, hV]
      · rcases hR : r.rendimento with _ | rd
        · simp [carregarLoader, firstFailingLocator, appRun, hA, hT, hV, hR]
        · exfalso
          rcases h with h | h | h | h <;>
            simp_all

/-- Concrete loader input whose Toneladas source is unreadable. -/
def c3src : RawSources :=
  { area := some []
    toneladas := none
    valor := some []
    rendimento := some [] }

/-- Witness for C3: with the Toneladas locator missing, the load fails as
a unit and reports that locator. -/
theorem fail_fast_witness :
    (c3src.area = none ∨ c3src.toneladas = none ∨ c3src.valor = none
      ∨ c3src.rendimento = none)
    ∧ ((carregarLoader c3src).1 = none
    ∧ (carregarLoader c3src).2 = firstFailingLocator c3src
    ∧ (firstFailingLocator c3src).isSome = true
    ∧ appRun c3src "Soja" todosMunicipios 2000 2030 MetricKey.area = none) :=
  ⟨Or.inr (Or.inl rfl),
   fail_fast c3src "Soja" todosMunicipios 2000 2030 MetricKey.area
     (Or.inr (Or.inl rfl))⟩

/-- Shared helper: the inline KPI mean is 0 on a zero-total-area group. -/
theorem avg_rendimento_of_sum_zero (group : List Row)
    (h : (group.map Row.area).sum = 0) : avg_rendimento group = 0 := by
  unfold avg_rendimento total_area
  rw [h]
  simp

/-- Shared helper: the yield of calcular_metricas_anuais is 0 on a
zero-total-area group. -/
theorem calcular_rendimento_of_sum_zero (group : List Row)
    (h : (group.map Row.area).sum = 0) :
    (calcular_metricas_anuais group).rendimento = 0 := by
  unfold calcular_metricas_anuais
  simp only [h]
  rw [if_neg (lt_irrefl 0)]

/-- Shared helper: on a positive-total-area group the yield of
calcular_metricas_anuais is the weighted quotient. -/
theorem calcular_rendimento_of_sum_pos (group : List Row)
    (h : 0 < (group.map Row.area).sum) :
    (calcular_metricas_anuais group).rendimento
      = (group.map (fun r => r.rendimento * r.area)).sum
        / (group.map Row.area).sum := by
  show (if 0 < (group.map Row.area).sum then
          (group.map (fun r => r.rendimento * r.area)).sum
            / (group.map Row.area).sum
        else 0)
      = (group.map (fun r => r.rendimento * r.area)).sum
        / (group.map Row.area).sum
  rw [if_pos h]

/-- C4: over any group of rows whose Area column sums to 0, including the
empty group, both area-weighted yield computations (the inline KPI one and
the one inside calcular_metricas_anuais) evaluate to 0; both are total
functions, so no division error can arise. -/
theorem zero_area_zero_yield (group : List Row)
    (h : (group.map Row.area).sum = 0) :
    avg_rendimento group = 0
    ∧ (calcular_metricas_anuais group).rendimento = 0 :=
  ⟨avg_rendimento_of_sum_zero group h, calcular_rendimento_of_sum_zero group h⟩

/-- Concrete non-empty zero-area group used to witness C4. -/
def c4group : List Row := [⟨2020, "Soja", "A", 0, 7, 3, 5⟩]

/-- Witness for C4 at a non-empty group whose only row has Area 0. -/
theorem zero_area_zero_yield_witness :
    (c4group.map Row.area).sum = 0
    ∧ (avg_rendimento c4group = 0
       ∧ (calcular_metricas_anuais c4group).rendimento = 0) :=
  ⟨by norm_num [c4group], zero_area_zero_yield c4group (by norm_num [c4group])⟩

/-- C10: on any non-empty subset the inline KPI average yield and the
yield entry of calcular_metricas_anuais agree: the two implementations of
the guarded area-weighted mean are equal. -/
theorem kpi_series_yield_agree (df : List Row) (h : df ≠ []) :
    avg_rendimento df = (calcular_metricas_anuais df).rendimento := rfl

/-- Witness for C10 at a concrete two-row subset. -/
theorem kpi_series_yield_agree_witness :
    c4group ≠ [] ∧ avg_rendimento c4group = (calcular_metricas_anuais c4group).rendimento :=
  ⟨List.cons_ne_nil _ _, kpi_series_yield_agree c4group (List.cons_ne_nil _ _)⟩

/-- C5: on a non-empty filtered table of non-negative areas the time
series has exactly one entry per distinct year (duplicate-free year column
covering exactly the years of the input), ordered strictly ascending, each
entry carrying the per-year sums of the additive measures and the per-year
area-weighted mean yield (0 for a zero-area year). -/
theorem time_series_correct (df : List Row) (hne : df ≠ [])
    (hA : ∀ r ∈ df, 0 ≤ r.area) :
    ((timeSeries df).map Prod.fst).Sorted (· < ·)
    ∧ (∀ y : Int, y ∈ (timeSeries df).map Prod.fst ↔ y ∈ df.map Row.ano)
    ∧ (∀ p ∈ timeSeries df,
        p.2.area = ((df.filter (fun r => r.ano == p.1)).map Row.area).sum
        ∧ p.2.toneladas = ((df.filter (fun r => r.ano == p.1)).map Row.toneladas).sum
        ∧ p.2.valor_produccion
            = ((df.filter (fun r => r.ano == p.1)).map Row.valor_produccion).sum
        ∧ (((df.filter (fun r => r.ano == p.1)).map Row.area).sum = 0 →
            p.2.rendimento = 0)
        ∧ (((df.filter (fun r => r.ano == p.1)).map Row.area).sum ≠ 0 →
            p.2.rendimento
              = ((df.filter (fun r => r.ano == p.1)).map
                  (fun r => r.rendimento * r.area)).sum
                / ((df.filter (fun r => r.ano == p.1)).map Row.area).sum)) := by
  have hmapfst : (timeSeries df).map Prod.fst = anosOrdenados df := by
    unfold timeSeries
    exact map_fst_map_pair _ _
  refine ⟨?_, ?_, ?_⟩
  · rw [hmapfst]
    exact sorted_sortDedup _
  · intro y
    rw [hmapfst]
    exact mem_sortDedup y _
  · intro p hp
    obtain ⟨y, hy, rfl⟩ := List.mem_map.mp hp
    refine ⟨rfl, rfl, rfl, ?_, ?_⟩
    · intro h0
      exact calcular_rendimento_of_sum_zero _ h0
    · intro hne0
      have hnn : 0 ≤ ((df.filter (fun r => r.ano == y)).map Row.area).sum := by
        apply List.sum_nonneg
        intro x hx
        obtain ⟨r, hr, rfl⟩ := List.mem_map.mp hx
        exact hA r (List.mem_of_mem_filter hr)
      exact calcular_rendimento_of_sum_pos _ (lt_of_le_of_ne hnn (Ne.symm hne0))

/-- Concrete two-year filtered table used to witness C5. -/
def c5df : List Row :=
  [⟨2020, "Soja", "A", 10, 0, 0, 100⟩,
   ⟨2019, "Soja", "B", 4, 2, 1, 50⟩]

/-- Witness for C5 at a concrete two-year table. -/
theorem time_series_correct_witness :
    (c5df ≠ [] ∧ ∀ r ∈ c5df, 0 ≤ r.area)
    ∧ (((timeSeries c5df).map Prod.fst).Sorted (· < ·)
    ∧ (∀ y : Int, y ∈ (timeSeries c5df).map Prod.fst ↔ y ∈ c5df.map Row.ano)
    ∧ (∀ p ∈ timeSeries c5df,
        p.2.area = ((c5df.filter (fun r => r.ano == p.1)).map Row.area).sum
        ∧ p.2.toneladas = ((c5df.filter (fun r => r.ano == p.1)).map Row.toneladas).sum
        ∧ p.2.valor_produccion
            = ((c5df.filter (fun r => r.ano == p.1)).map Row.valor_produccion).sum
        ∧ (((c5df.filter (fun r => r.ano == p.1)).map Row.area).sum = 0 →
            p.2.rendimento = 0)
        ∧ (((c5df.filter (fun r => r.ano == p.1)).map Row.area).sum ≠ 0 →
            p.2.rendimento
              = ((c5df.filter (fun r => r.ano == p.1)).map
                  (fun r => r.rendimento * r.area)).sum
                / ((c5df.filter (fun r => r.ano == p.1)).map Row.area).sum))) :=
  ⟨⟨List.cons_ne_nil _ _, by norm_num [c5df]⟩,
   time_series_correct c5df (List.cons_ne_nil _ _) (by norm_num [c5df])⟩

/-- The two cascaded filters equal one filter by the combined predicate. -/
theorem df_filtrado_eq_filter (df : List Row) (cultura municipio : String)
    (anoMin anoMax : Int) :
    df_filtrado df cultura municipio anoMin anoMax
      = df.filter (fun r => rowMatches r cultura municipio anoMin anoMax) := by
  unfold df_filtrado df_filtrado_base rowMatches
  cases hm : (municipio == todosMunicipios) <;>
    simp [hm, List.filter_filter, Bool.and_comm]

/-- C7: a selection matching no row yields an empty filtered table, an
empty time series and an empty ranked comparison, the aggregation blocks
being skipped entirely; every function involved is total, so no exception
can arise. -/
theorem empty_selection (df : List Row) (cultura municipio : String)
    (anoMin anoMax : Int) (mk : MetricKey)
    (h : ∀ r ∈ df, rowMatches r cultura municipio anoMin anoMax = false) :
    df_filtrado df cultura municipio anoMin anoMax = []
    ∧ timeSeries (df_filtrado df cultura municipio anoMin anoMax) = []
    ∧ dashboardAggregator df cultura municipio anoMin anoMax mk
        = { filtrado := [], series := [], comparativo := [] } := by
  have hfil : df_filtrado df cultura municipio anoMin anoMax = [] := by
    rw [df_filtrado_eq_filter]
    rw [List.filter_eq_nil_iff]
    intro a ha
    simp [h a ha]
  refine ⟨hfil, by rw [hfil]; rfl, ?_⟩
  unfold dashboardAggregator
  rw [hfil]
  rfl

/-- Concrete table and mismatching selection used to witness C7. -/
def c7df : List Row := [⟨2020, "Soja", "A", 10, 0, 0, 100⟩]

/-- Witness for C7: selecting a crop absent from the table empties every
derived table. -/
theorem empty_selection_witness :
    (∀ r ∈ c7df, rowMatches r "Milho" todosMunicipios 2000 2030 = false)
    ∧ (df_filtrado c7df "Milho" todosMunicipios 2000 2030 = []
    ∧ timeSeries (df_filtrado c7df "Milho" todosMunicipios 2000 2030) = []
    ∧ dashboardAggregator c7df "Milho" todosMunicipios 2000 2030 MetricKey.toneladas
        = { filtrado := [], series := [], comparativo := [] }) :=
  ⟨by decide,
   empty_selection c7df "Milho" todosMunicipios 2000 2030 MetricKey.toneladas
     (by decide)⟩

/-- C8: with a single literal municipality selected and a non-empty
filtered table, the ranked comparison is the whole fact table restricted
to that municipality and the latest year, grouped by crop (one sorted
entry per crop present there, so every crop and no top-K truncation),
each entry aggregating the chosen measure over its crop group. -/
theorem single_municipio_comparison (df : List Row) (cultura municipio : String)
    (anoMin anoMax : Int) (mk : MetricKey)
    (hm : (municipio == todosMunicipios) = false)
    (hne : (df_filtrado df cultura municipio anoMin anoMax).isEmpty = false) :
    (dashboardAggregator df cultura municipio anoMin anoMax mk).comparativo
      = bar_data_municipio df municipio
          (latest_year_in_range (df_filtrado df cultura municipio anoMin anoMax)) mk
    ∧ ∀ ly : Int,
        (((bar_data_municipio df municipio ly mk).map Prod.fst).Sorted (· < ·))
        ∧ (∀ c : String,
            c ∈ (bar_data_municipio df municipio ly mk).map Prod.fst ↔
              c ∈ (df.filter (fun r => r.municipio == municipio && r.ano == ly)).map
                    Row.cultura)
        ∧ (bar_data_municipio df municipio ly mk).length
            = (sortDedup ((df.filter
                (fun r => r.municipio == municipio && r.ano == ly)).map
                  Row.cultura)).length
        ∧ (∀ pr ∈ bar_data_municipio df municipio ly mk,
            pr.2 = aggValue mk
              ((df.filter (fun r => r.municipio == municipio && r.ano == ly)).filter
                (fun r => r.cultura == pr.1))) := by
  constructor
  · unfold dashboardAggregator
    simp [hne, hm]
  · intro ly
    have hfst : (bar_data_municipio df municipio ly mk).map Prod.fst
        = sortDedup ((df.filter
            (fun r => r.municipio == municipio && r.ano == ly)).map Row.cultura) := by
      unfold bar_data_municipio
      exact map_fst_map_pair _ _
    refine ⟨?_, ?_, ?_, ?_⟩
    · rw [hfst]
      exact sorted_sortDedup _
    · intro c
      rw [hfst]
      exact mem_sortDedup c _
    · unfold bar_data_municipio
      rw [List.length_map]
    · intro pr hpr
      unfold bar_data_municipio at hpr
      obtain ⟨c, hc, rfl⟩ := List.mem_map.mp hpr
      rfl

/-- Concrete fact table with two crops in the same municipality, used to
witness C8. -/
def c8df : List Row :=
  [⟨2020, "Soja", "M", 1, 2, 3, 4⟩,
   ⟨2020, "Milho", "M", 5, 6, 7, 8⟩]

/-- Witness for C8: with municipality M selected while the crop filter is
Soja, the comparison covers both crops of M. -/
theorem single_municipio_comparison_witness :
    (((("M" : String) == todosMunicipios) = false)
      ∧ (df_filtrado c8df "Soja" "M" 2000 2030).isEmpty = false)
    ∧ ((dashboardAggregator c8df "Soja" "M" 2000 2030 MetricKey.toneladas).comparativo
      = bar_data_municipio c8df "M"
          (latest_year_in_range (df_filtrado c8df "Soja" "M" 2000 2030))
          MetricKey.toneladas
    ∧ ∀ ly : Int,
        (((bar_data_municipio c8df "M" ly MetricKey.toneladas).map Prod.fst).Sorted (· < ·))
        ∧ (∀ c : String,
            c ∈ (bar_data_municipio c8df "M" ly MetricKey.toneladas).map Prod.fst ↔
              c ∈ (c8df.filter (fun r => r.municipio == "M" && r.ano == ly)).map
                    Row.cultura)
        ∧ (bar_data_municipio c8df "M" ly MetricKey.toneladas).length
            = (sortDedup ((c8df.filter
                (fun r => r.municipio == "M" && r.ano == ly)).map
                  Row.cultura)).length
        ∧ (∀ pr ∈ bar_data_municipio c8df "M" ly MetricKey.toneladas,
            pr.2 = aggValue MetricKey.toneladas
              ((c8df.filter (fun r => r.municipio == "M" && r.ano == ly)).filter
                (fun r => r.cultura == pr.1)))) :=
  ⟨⟨by decide, by decide⟩,
   single_municipio_comparison c8df "Soja" "M" 2000 2030 MetricKey.toneladas
     (by decide) (by decide)⟩

theorem getMetric_mergeRow (s : Sources) (mk : MetricKey) (k : Key) :
    getMetric mk (mergeRow s k) = mergeValue (sourceOf s mk) k := by
  cases mk <;> rfl

theorem mergeValue_replaceCell_num0 (l : List (Key × RawCell)) (k : Key)
    (str : String) (h : lookupCell l k = some (RawCell.text str)) (k2 : Key) :
    mergeValue (replaceCell l k (RawCell.num 0)) k2 = mergeValue l k2 := by
  by_cases e : k2 = k
  · subst e
    unfold mergeValue cellAfterFill
    rw [lookupCell_replaceCell_self, h]
    rfl
  · unfold mergeValue cellAfterFill
    rw [lookupCell_replaceCell_ne _ _ _ _ e]

theorem mergedKeys_setSource_replace (s : Sources) (mk : MetricKey) (k : Key)
    (c : RawCell) :
    mergedKeys (setSource s mk (replaceCell (sourceOf s mk) k c))
      = mergedKeys s := by
  cases mk <;> simp [mergedKeys, setSource, sourceOf, map_fst_replaceCell]

theorem mergeRow_setSource_replace (s : Sources) (mk : MetricKey) (k : Key)
    (str : String) (h : lookupCell (sourceOf s mk) k = some (RawCell.text str))
    (k2 : Key) :
    mergeRow (setSource s mk (replaceCell (sourceOf s mk) k (RawCell.num 0))) k2
      = mergeRow s k2 := by
  cases mk with
  | area =>
    simp only [sourceOf] at h
    simp [mergeRow, setSource, sourceOf, mergeValue_replaceCell_num0 _ _ _ h]
  | toneladas =>
    simp only [sourceOf] at h
    simp [mergeRow, setSource, sourceOf, mergeValue_replaceCell_num0 _ _ _ h]
  | valor_produccion =>
    simp only [sourceOf] at h
    simp [mergeRow, setSource, sourceOf, mergeValue_replaceCell_num0 _ _ _ h]
  | rendimento =>
    simp only [sourceOf] at h
    simp [mergeRow, setSource, sourceOf, mergeValue_replaceCell_num0 _ _ _ h]

/-- C6: an unparseable text cell of any measure source becomes 0.0 at its
position in the merged fact table, and the merge result is identical to
the one obtained with that cell replaced by the number 0: no other row or
measure is affected, and since every function involved is total the parse
failure is never propagated as an error. -/
theorem coerce_bad_cell (s : Sources) (mk : MetricKey) (k : Key) (str : String)
    (h : lookupCell (sourceOf s mk) k = some (RawCell.text str)) :
    (∀ r ∈ carregar_e_preparar_dados s, rowKey r = k → getMetric mk r = 0)
    ∧ carregar_e_preparar_dados s
        = carregar_e_preparar_dados
            (setSource s mk (replaceCell (sourceOf s mk) k (RawCell.num 0))) := by
  constructor
  · intro r hr hk
    obtain ⟨k1, hk1, rfl⟩ := List.mem_map.mp hr
    rw [rowKey_mergeRow] at hk
    subst hk
    rw [getMetric_mergeRow]
    unfold mergeValue cellAfterFill
    rw [h]
    rfl
  · unfold carregar_e_preparar_dados
    rw [mergedKeys_setSource_replace]
    apply List.map_congr_left
    intro k2 _
    exact (mergeRow_setSource_replace s mk k str h k2).symm

/-- Concrete sources whose Area table holds an unparseable cell, used to
witness C6. -/
def c6src : Sources :=
  { area := [(⟨2020, "Soja", "A"⟩, RawCell.text "N/A")]
    toneladas := []
    valor := []
    rendimento := [] }

/-- Witness for C6 at the concrete unparseable Area cell. -/
theorem coerce_bad_cell_witness :
    lookupCell (sourceOf c6src MetricKey.area) ⟨2020, "Soja", "A"⟩
        = some (RawCell.text "N/A")
    ∧ ((∀ r ∈ carregar_e_preparar_dados c6src,
          rowKey r = ⟨2020, "Soja", "A"⟩ → getMetric MetricKey.area r = 0)
      ∧ carregar_e_preparar_dados c6src
          = carregar_e_preparar_dados
              (setSource c6src MetricKey.area
                (replaceCell (sourceOf c6src MetricKey.area) ⟨2020, "Soja", "A"⟩
                  (RawCell.num 0)))) :=
  ⟨by decide,
   coerce_bad_cell c6src MetricKey.area ⟨2020, "Soja", "A"⟩ "N/A" (by decide)⟩

/-- Concrete sources with a negative value in the Area table, refuting C9
as stated. -/
def c9src : Sources :=
  { area := [(⟨2020, "Soja", "A"⟩, RawCell.num (-5))]
    toneladas := []
    valor := []
    rendimento := [] }

/-- C9 counterexample: the merge passes a negative source value through
unchanged, so the fact table is not non-negative regardless of the values
present in the input sources. -/
theorem measures_nonneg_cex :
    ¬ (∀ r ∈ carregar_e_preparar_dados c9src,
        0 ≤ r.area ∧ 0 ≤ r.toneladas ∧ 0 ≤ r.valor_produccion
          ∧ 0 ≤ r.rendimento) := by
  intro hcl
  have hlist : carregar_e_preparar_dados c9src
      = [⟨2020, "Soja", "A", -5, 0, 0, 0⟩] := by
    norm_num [carregar_e_preparar_dados, mergedKeys, mergeRow, mergeValue,
      cellAfterFill, lookupCell, coerceFill, c9src, List.dedup]
  rw [hlist] at hcl
  have h5 := (hcl _ (List.mem_singleton_self _)).1
  norm_num at h5

/-- C9 amended: whenever every numeric cell of every input source is
non-negative, all four measures of every merged fact-table row are
non-negative (absent and unparseable cells become 0). -/
theorem measures_nonneg_of_sources_nonneg (s : Sources)
    (h : ∀ kv ∈ s.area ++ s.toneladas ++ s.valor ++ s.rendimento,
      cellNonneg kv.2) :
    ∀ r ∈ carregar_e_preparar_dados s,
      0 ≤ r.area ∧ 0 ≤ r.toneladas ∧ 0 ≤ r.valor_produccion
        ∧ 0 ≤ r.rendimento := by
  intro r hr
  obtain ⟨k, hk, rfl⟩ := List.mem_map.mp hr
  have hA : ∀ kv ∈ s.area, cellNonneg kv.2 := fun kv hkv => h kv (by simp [hkv])
  have hT : ∀ kv ∈ s.toneladas, cellNonneg kv.2 := fun kv hkv => h kv (by simp [hkv])
  have hV : ∀ kv ∈ s.valor, cellNonneg kv.2 := fun kv hkv => h kv (by simp [hkv])
  have hR : ∀ kv ∈ s.rendimento, cellNonneg kv.2 := fun kv hkv => h kv (by simp [hkv])
  exact ⟨mergeValue_nonneg _ _ hA, mergeValue_nonneg _ _ hT,
         mergeValue_nonneg _ _ hV, mergeValue_nonneg _ _ hR⟩

/-- Witness for the amended C9 at concrete non-negative sources. -/
theorem measures_nonneg_of_sources_nonneg_witness :
    (∀ kv ∈ c2src.area ++ c2src.toneladas ++ c2src.valor ++ c2src.rendimento,
      cellNonneg kv.2)
    ∧ (∀ r ∈ carregar_e_preparar_dados c2src,
        0 ≤ r.area ∧ 0 ≤ r.toneladas ∧ 0 ≤ r.valor_produccion
          ∧ 0 ≤ r.rendimento) :=
  ⟨by norm_num [c2src, cellNonneg],
   measures_nonneg_of_sources_nonneg c2src (by norm_num [c2src, cellNonneg])⟩

/-- Latest-year subset exhibiting the C1 divergence: one municipality with
two rows of different areas. -/
def c1df : List Row :=
  [⟨2020, "Soja", "A", 10, 0, 0, 100⟩,
   ⟨2020, "Soja", "A", 30, 0, 0, 200⟩]

/-- C1: on this latest-year subset, with the municipality selector on all
municipalities and the chosen measure Rendimento, the ranked comparison
entry of municipality A is the naive per-row mean 150, while the
area-weighted mean of the same rows, as the KPI formula computes it, is
175: the comparison aggregates yield with a plain mean, contradicting the
specified weighted aggregation. -/
theorem ranked_yield_naive_mean_bug :
    (dashboardAggregator c1df "Soja" todosMunicipios 2000 2030
        MetricKey.rendimento).comparativo = [("A", 150)]
    ∧ bar_data_todos c1df MetricKey.rendimento = [("A", 150)]
    ∧ avg_rendimento c1df = 175
    ∧ (150 : ℚ) ≠ 175 := by
  refine ⟨?_, ?_, ?_, by norm_num⟩
  · norm_num [dashboardAggregator, df_filtrado, df_filtrado_base, todosMunicipios,
      latest_year_in_range, bar_data_todos, sortDedup, insOrd, aggValue, getMetric,
      nlargest10, sortDesc, insDesc, c1df, List.max?, List.foldl]
  · norm_num [bar_data_todos, sortDedup, insOrd, aggValue, getMetric,
      nlargest10, sortDesc, insDesc, c1df]
  · norm_num [avg_rendimento, total_area, c1df]

end Goias
